import Mathlib

/-!
Verification of the weather-visualization client's core pipeline:
the IndexedDB batch cache, the Redux weather slice (batch merge,
playback, bookkeeping), and the grid rasterization color path.

Each definition is a shallow embedding of the corresponding JavaScript
function; JS numbers are modelled as `Int` (time indices, timestamps,
counters) or `ℚ` (coordinates, data values), nullable values as
`Option`, and promise rejection as `Except.error`.
-/

/-! ## IndexedDB cache (weatherSlice, class IndexedDBCache) -/

/-- CACHE_DURATION = 12 * 60 * 60 * 1000, 12 hours in milliseconds. -/
def CACHE_DURATION : Int := 12 * 60 * 60 * 1000

/-- One record of the `weatherBatches` object store: keyPath is
`batchNumber`, value is `{batchNumber, data, timestamp}`. -/
structure CacheEntry (α : Type) where
  batchNumber : Int
  data : α
  timestamp : Int
deriving DecidableEq, Repr

/-- `IndexedDBCache.get(batchNumber)`, success path: look the entry up by
key; a fresh entry (age < CACHE_DURATION) resolves with its payload and
leaves the store alone; a stale one is deleted (`this.delete(batchNumber)`)
and the promise resolves with `null`.  Returns the resolved value together
with the store after the side effect. -/
def IndexedDBCache.get (now : Int) (store : List (CacheEntry α)) (batchNumber : Int) :
    Option α × List (CacheEntry α) :=
  match store.find? (fun e => e.batchNumber == batchNumber) with
  | some result =>
      if now - result.timestamp < CACHE_DURATION then
        (some result.data, store)
      else
        (none, store.filter (fun e => e.batchNumber != batchNumber))
  | none => (none, store)

/-- `IndexedDBCache.get` as seen by its caller when the underlying
storage read can fail: `request.onerror = () => reject(request.error)`
propagates the storage error as a promise rejection; a successful read
goes through the freshness check. -/
def IndexedDBCache.getResult (readResult : Except String (Option (CacheEntry α)))
    (now : Int) : Except String (Option α) :=
  match readResult with
  | .error e => .error e
  | .ok none => .ok none
  | .ok (some result) =>
      if now - result.timestamp < CACHE_DURATION then .ok (some result.data)
      else .ok none

/-- `checkCache(batchNumber)` from App.jsx: the same keyed read, but every
failure path (`request.onerror`, `getRequest.onerror`, a thrown exception)
resolves with `null` instead of rejecting. -/
def checkCache (readResult : Except String (Option (CacheEntry α))) (now : Int) :
    Option α :=
  match readResult with
  | .error _ => none
  | .ok none => none
  | .ok (some result) =>
      if now - result.timestamp < CACHE_DURATION then some result.data
      else none

/-! ## Weather slice data model (weatherSlice initialState and payloads) -/

/-- One element of a batch payload's `time_series` array; the variable
table (JS field `variables`, a name Lean reserves, hence `vars`) is kept
abstract (`α`) because the slice only ever reads `.time`. -/
structure Timestep (α : Type) where
  time : Int
  vars : α
deriving DecidableEq, Repr

/-- `grid_info` of a batch payload. -/
structure GridInfo where
  corner : ℚ × ℚ
  size : Nat × Nat
  steps : ℚ × ℚ
deriving DecidableEq, Repr

/-- `metadata.batch_info` of a batch payload. -/
structure BatchInfoMeta where
  total_batches : Int
  batch_size : Int
deriving DecidableEq, Repr

/-- `metadata` of a batch payload. -/
structure Metadata where
  batch_info : BatchInfoMeta
  total_timestamps : Int
  initial_timestamp : String
  final_timestamp : String
  variable_scales : List (String × ℚ)
deriving DecidableEq, Repr

/-- A batch payload as consumed by the reducers (`grid_info`,
`time_series`, `metadata`). -/
structure WeatherData (α : Type) where
  grid_info : GridInfo
  time_series : List (Timestep α)
  metadata : Metadata
deriving DecidableEq, Repr

/-- `cacheStats` of the slice state. -/
structure CacheStats where
  hits : Int
  misses : Int
  totalSize : Int
deriving DecidableEq, Repr

/-- `batchInfo` of the slice state, built when batch 1 arrives. -/
structure BatchInfo where
  currentBatch : Int
  totalBatches : Int
  batchSize : Int
  loadedBatches : List Int
  totalTimestamps : Int
  initialTimestamp : String
  finalTimestamp : String
deriving DecidableEq, Repr

/-- The weather slice state (fields the reducers under scrutiny touch). -/
structure WeatherState (α : Type) where
  weatherData : Option (WeatherData α)
  loading : Bool
  error : Option String
  selectedVariable : String
  currentTimeIndex : Int
  animationSpeed : Int
  batchInfo : Option BatchInfo
  fetchingBatches : List Int
  cacheStats : CacheStats
deriving DecidableEq, Repr

/-- `initialState` of the slice. -/
def initialState : WeatherState α :=
  { weatherData := none
    loading := false
    error := none
    selectedVariable := "T2"
    currentTimeIndex := 0
    animationSpeed := 1000
    batchInfo := none
    fetchingBatches := []
    cacheStats := { hits := 0, misses := 0, totalSize := 0 } }

/-! ## Merge step

The three merge sites (`fetchWeatherBatch.fulfilled` for `batchNumber > 1`,
`fetchWeatherBatchFromWorker.fulfilled`, and the `loadCachedBatch` reducer)
contain letter-for-letter identical merge code; it is embedded once.
`Array.prototype.sort` with comparator `(a, b) => a.time - b.time` is a
stable ascending sort by `time`, which `List.mergeSort` with
`a.time ≤ b.time` models exactly. -/

/-- The merge: drop incoming records whose `time` is already present
(`Set.has` over the existing times), append the remainder, sort ascending
by `time`. -/
def mergeTimeSeries (existingTimeSeries newTimeSeries : List (Timestep α)) :
    List (Timestep α) :=
  let existingTimeIndices := existingTimeSeries.map (fun t => t.time)
  let uniqueNewTimeSeries :=
    newTimeSeries.filter (fun t => !existingTimeIndices.contains t.time)
  (existingTimeSeries ++ uniqueNewTimeSeries).mergeSort
    (fun a b => a.time ≤ b.time)

/-- `loadedBatches.push(batchNumber); loadedBatches.sort((a, b) => a - b)`,
guarded by the `includes` check. -/
def recordLoadedBatch (bi : BatchInfo) (batchNumber : Int) : BatchInfo :=
  if bi.loadedBatches.contains batchNumber then bi
  else { bi with
          loadedBatches := (bi.loadedBatches ++ [batchNumber]).mergeSort
            (fun a b => a ≤ b) }

/-! ## Reducers -/

/-- The `advanceTime` reducer: `totalSteps` comes from
`batchInfo.totalTimestamps - 1` (`100` when `batchInfo` is null); the
index is incremented while below `totalSteps` and reset to 0 otherwise. -/
def advanceTime (state : WeatherState α) : WeatherState α :=
  let totalSteps : Int :=
    match state.batchInfo with
    | some bi => bi.totalTimestamps - 1
    | none => 100
  if state.currentTimeIndex < totalSteps then
    { state with currentTimeIndex := state.currentTimeIndex + 1 }
  else
    { state with currentTimeIndex := 0 }

/-- The `loadCachedBatch` reducer: bump `cacheStats.hits`, then merge only
when both `weatherData` and `batchInfo` are non-null. -/
def loadCachedBatch (state : WeatherState α) (batchNumber : Int)
    (data : WeatherData α) : WeatherState α :=
  let state :=
    { state with cacheStats :=
        { state.cacheStats with hits := state.cacheStats.hits + 1 } }
  match state.weatherData, state.batchInfo with
  | some wd, some bi =>
      { state with
          weatherData := some
            { wd with time_series := mergeTimeSeries wd.time_series data.time_series }
          batchInfo := some (recordLoadedBatch bi batchNumber) }
  | some _, none => state
  | none, _ => state

/-- The `fetchWeatherBatch.fulfilled` reducer: cache stats, in-flight
removal, then either batch-1 initialization or the merge. -/
def fetchWeatherBatchFulfilled (state : WeatherState α) (batchNumber : Int)
    (fromCache : Bool) (data : WeatherData α) : WeatherState α :=
  let state :=
    if fromCache then
      { state with cacheStats :=
          { state.cacheStats with hits := state.cacheStats.hits + 1 } }
    else
      { state with cacheStats :=
          { state.cacheStats with misses := state.cacheStats.misses + 1 } }
  let state :=
    { state with fetchingBatches :=
        state.fetchingBatches.filter (fun b => b != batchNumber) }
  if batchNumber = 1 then
    { state with
        loading := false
        weatherData := some data
        batchInfo := some
          { currentBatch := 1
            totalBatches := data.metadata.batch_info.total_batches
            batchSize := data.metadata.batch_info.batch_size
            loadedBatches := [1]
            totalTimestamps := data.metadata.total_timestamps
            initialTimestamp := data.metadata.initial_timestamp
            finalTimestamp := data.metadata.final_timestamp }
        currentTimeIndex := 0
        error := none }
  else
    match state.weatherData, state.batchInfo with
    | some wd, some bi =>
        { state with
            weatherData := some
              { wd with time_series := mergeTimeSeries wd.time_series data.time_series }
            batchInfo := some (recordLoadedBatch bi batchNumber)
            error := none }
    | some _, none => { state with error := none }
    | none, _ => { state with error := none }

/-- The `fetchWeatherBatch.rejected` reducer: drop the batch from
`fetchingBatches`; for batch 1 also clear `loading` and `weatherData`;
always set `error` to the payload (or the fallback message). -/
def fetchWeatherBatchRejected (state : WeatherState α) (batchNumber : Int)
    (payload : Option String) : WeatherState α :=
  let state :=
    { state with fetchingBatches :=
        state.fetchingBatches.filter (fun b => b != batchNumber) }
  let state :=
    if batchNumber = 1 then { state with loading := false, weatherData := none }
    else state
  let message :=
    match payload with
    | some m => m
    | none => s!"Failed to fetch batch {batchNumber}"
  { state with error := some message }

/-- The `fetchWeatherBatchFromWorker.fulfilled` reducer: always counts a
miss, removes the batch from `fetchingBatches`, and merges only when the
dataset is initialized. -/
def fetchWeatherBatchFromWorkerFulfilled (state : WeatherState α)
    (batchNumber : Int) (data : WeatherData α) : WeatherState α :=
  let state :=
    { state with cacheStats :=
        { state.cacheStats with misses := state.cacheStats.misses + 1 } }
  let state :=
    { state with fetchingBatches :=
        state.fetchingBatches.filter (fun b => b != batchNumber) }
  match state.weatherData, state.batchInfo with
  | some wd, some bi =>
      { state with
          weatherData := some
            { wd with time_series := mergeTimeSeries wd.time_series data.time_series }
          batchInfo := some (recordLoadedBatch bi batchNumber) }
  | some _, none => state
  | none, _ => state

/-- The `fetchWeatherBatch` thunk's settlement, as a function of the two
suspension points it awaits: the cache read (which may reject) and the
network fetch.  A cache rejection lands in the thunk's `catch`, which
rejects the thunk with the message; a cache hit resolves `fromCache`;
otherwise the network result decides.  (`cache.cleanExpired` and
`cache.set` do not affect the settled value and are omitted.) -/
def fetchWeatherBatchThunk
    (cacheRead : Except String (Option (CacheEntry (WeatherData α))))
    (network : Except String (WeatherData α)) (now : Int) :
    Except String (WeatherData α × Bool) :=
  match IndexedDBCache.getResult cacheRead now with
  | .error e => .error e
  | .ok (some cachedData) => .ok (cachedData, true)
  | .ok none =>
      match network with
      | .ok d => .ok (d, false)
      | .error e => .error e

/-! ## Color ramp (hooks/helper: colorScale, variableRanges, interpolateColor) -/

/-- An `[r, g, b]` color stop. -/
structure RGB where
  r : Int
  g : Int
  b : Int
deriving DecidableEq, Repr

/-- The CSS color string `` `rgb(${r}, ${g}, ${b})` ``. -/
def rgbString (c : RGB) : String :=
  let r := c.r
  let g := c.g
  let b := c.b
  s!"rgb({r}, {g}, {b})"

/-- The `colorScale` table; `colorScale[variableType]` is `undefined`
(`none`) off the five supported variables. -/
def colorScale (variableType : String) : Option (List RGB) :=
  match variableType with
  | "T2" => some [⟨0, 0, 255⟩, ⟨0, 128, 255⟩, ⟨0, 255, 255⟩, ⟨128, 255, 0⟩,
                  ⟨255, 255, 0⟩, ⟨255, 128, 0⟩, ⟨255, 0, 0⟩]
  | "RH" => some [⟨255, 255, 255⟩, ⟨200, 220, 255⟩, ⟨150, 180, 255⟩,
                  ⟨100, 140, 255⟩, ⟨50, 100, 255⟩, ⟨0, 60, 255⟩]
  | "TOTAL_RAIN" => some [⟨255, 255, 255⟩, ⟨200, 220, 255⟩, ⟨150, 180, 255⟩,
                          ⟨100, 140, 255⟩, ⟨50, 100, 255⟩, ⟨0, 60, 200⟩, ⟨0, 0, 150⟩]
  | "SST" => some [⟨0, 255, 255⟩, ⟨0, 200, 255⟩, ⟨100, 150, 255⟩,
                   ⟨200, 100, 200⟩, ⟨255, 150, 100⟩, ⟨255, 200, 0⟩]
  | "TSK" => some [⟨0, 0, 255⟩, ⟨0, 128, 255⟩, ⟨0, 255, 255⟩, ⟨128, 255, 0⟩,
                   ⟨255, 255, 0⟩, ⟨255, 128, 0⟩, ⟨255, 0, 0⟩]
  | _ => none

/-- The `variableRanges` fallback table, as `(min, max)` pairs. -/
def variableRanges (variableType : String) : Option (ℚ × ℚ) :=
  match variableType with
  | "T2" => some (0, 50)
  | "TSK" => some (0, 50)
  | "RH" => some (0, 100)
  | "TOTAL_RAIN" => some (0, 50)
  | "SST" => some (0, 35)
  | _ => none

/-- `Math.round`: `⌊x + 1/2⌋` (round half toward positive infinity),
matching the JS function on our rational inputs. -/
def mathRound (q : ℚ) : Int := ⌊q + 1 / 2⌋

/-- `interpolateColor(value, min, max, variableType)`.  The first guard
returns the neutral gray for a null/undefined value or variable type.
A `none` result stands for the `TypeError` the JS code would throw when
`variableType` is not a key of `colorScale`/`variableRanges` (the two
tables share their key set, so in practice both lookups fail together).
`minOpt`/`maxOpt` model the JS parameters `min`/`max`, which may be
`undefined`. -/
def interpolateColor (value : Option ℚ) (minOpt maxOpt : Option ℚ)
    (variableType : Option String) : Option String :=
  match variableType, value with
  | none, _ => some (rgbString ⟨128, 128, 128⟩)
  | some _, none => some (rgbString ⟨128, 128, 128⟩)
  | some vt, some v =>
    match colorScale vt with
    | none => none
    | some colorArray =>
      let minFallback : Option ℚ := (variableRanges vt).map (fun p => p.1)
      let maxFallback : Option ℚ := (variableRanges vt).map (fun p => p.2)
      match (match minOpt with | some m => some m | none => minFallback),
            (match maxOpt with | some m => some m | none => maxFallback) with
      | some minVal, some maxVal =>
          if minVal = maxVal then
            some (rgbString (colorArray.getD 0 ⟨0, 0, 0⟩))
          else
            let normalized := max 0 (min 1 ((v - minVal) / (maxVal - minVal)))
            let index : Int := ⌊normalized * ((colorArray.length : ℚ) - 1)⌋
            let nextIndex : Int := min (index + 1) ((colorArray.length : Int) - 1)
            let factor : ℚ := normalized * ((colorArray.length : ℚ) - 1) - index
            let color1 := colorArray.getD index.toNat ⟨0, 0, 0⟩
            let color2 := colorArray.getD nextIndex.toNat ⟨0, 0, 0⟩
            let r := mathRound ((color1.r : ℚ) + factor * ((color2.r : ℚ) - color1.r))
            let g := mathRound ((color1.g : ℚ) + factor * ((color2.g : ℚ) - color1.g))
            let b := mathRound ((color1.b : ℚ) + factor * ((color2.b : ℚ) - color1.b))
            some (rgbString ⟨r, g, b⟩)
      | _, _ => none

/-! ## GridOverlay rasterization (GridOverlay.jsx processGridData) -/

/-- The variable table of one timestep as GridOverlay consumes it: a map
from variable name to a value array whose entries may be null/undefined/NaN
(`none`). -/
def VarTable : Type := List (String × List (Option ℚ))

/-- JS property access `timeData.variables[name]`. -/
def VarTable.lookup (vt : VarTable) (name : String) : Option (List (Option ℚ)) :=
  (List.find? (fun p => p.1 == name) vt).map (fun p => p.2)

/-- JS `v || 0` on a value-array entry: null, undefined and NaN (all
modelled `none`) are falsy and give 0; every other number is kept
(0 itself also yields 0, so mapping `some 0` to 0 is exact). -/
def jsOr0 (v : Option ℚ) : ℚ :=
  match v with
  | some q => q
  | none => 0

/-- `weatherData.metadata?.variable_scales?.[variable] || 1`: a missing
key and a zero scale (falsy) both fall back to 1. -/
def scaleOf (scales : List (String × ℚ)) (varName : String) : ℚ :=
  match (List.find? (fun p => p.1 == varName) scales).map (fun p => p.2) with
  | none => 1
  | some q => if q = 0 then 1 else q

/-- `Math.min(...xs)` on a nonempty spread (the empty case, which JS sends
to `Infinity`, is unreachable behind the `values.length === 0` guard). -/
def mathMin : List ℚ → ℚ
  | [] => 0
  | x :: xs => xs.foldl min x

/-- `Math.max(...xs)` on a nonempty spread. -/
def mathMax : List ℚ → ℚ
  | [] => 0
  | x :: xs => xs.foldl max x

/-- One entry of `gridCells` (the `allData` hover snapshot is dropped:
no claim reads it). -/
structure GridCell where
  bounds : (ℚ × ℚ) × (ℚ × ℚ)
  center : ℚ × ℚ
  value : ℚ
  row : Nat
  col : Nat
deriving DecidableEq, Repr

/-- The processed slice `{cells, minValue, maxValue}`. -/
structure ProcessedGrid where
  cells : List GridCell
  minValue : ℚ
  maxValue : ℚ
deriving DecidableEq, Repr

/-- The row-major cell loop of `processGridData`: `valueIndex` runs over
the cells in row-major order and the inner `break` stops each row as soon
as `valueIndex` reaches the value count, so exactly
`min (rows * cols) (length values)` cells are produced. -/
def buildCells (corner steps : ℚ × ℚ) (rows cols : Nat)
    (scaledValues : List ℚ) : List GridCell :=
  (List.range (min (rows * cols) scaledValues.length)).map (fun valueIndex =>
    let row := valueIndex / cols
    let col := valueIndex % cols
    let lat1 := corner.1 + (row : ℚ) * steps.1
    let lat2 := corner.1 + ((row : ℚ) + 1) * steps.1
    let lng1 := corner.2 + (col : ℚ) * steps.2
    let lng2 := corner.2 + ((col : ℚ) + 1) * steps.2
    { bounds := ((lat1, lng1), (lat2, lng2))
      center := ((lat1 + lat2) / 2, (lng1 + lng2) / 2)
      value := scaledValues.getD valueIndex 0
      row := row
      col := col })

/-- `processGridData(weatherData, timeData, variable)`: null out when the
variable's value array is missing or empty, otherwise scale every entry
with `(v || 0) / scale`, take the per-timestep min/max, and build the
cells. -/
def processGridData (weatherData : WeatherData VarTable)
    (timeData : Timestep VarTable) (varName : String) : Option ProcessedGrid :=
  match VarTable.lookup timeData.vars varName with
  | none => none
  | some values =>
    if values.length = 0 then none
    else
      let scale := scaleOf weatherData.metadata.variable_scales varName
      let scaledValues := values.map (fun v => jsOr0 v / scale)
      some
        { cells := buildCells weatherData.grid_info.corner weatherData.grid_info.steps
            weatherData.grid_info.size.1 weatherData.grid_info.size.2 scaledValues
          minValue := mathMin scaledValues
          maxValue := mathMax scaledValues }

/-- The fill color `createCanvas` assigns to a rendered cell:
`interpolateColor(cell.value, minValue, maxValue, selectedVariable)`. -/
def cellFillStyle (cell : GridCell) (minValue maxValue : ℚ)
    (selectedVariable : String) : Option String :=
  interpolateColor (some cell.value) (some minValue) (some maxValue)
    (some selectedVariable)

/-! ## Cross-fade transition (GridOverlay.jsx transitionToNewOverlay) -/

/-- The overlay double-buffer as held in the component's refs:
`currentOverlayRef`, the overlay being faded in (with its opacity), and
`isTransitioningRef`. -/
structure OverlayState where
  currentOverlay : Option String
  fadingOverlay : Option String
  newOpacity : ℚ
  oldOpacity : ℚ
  isTransitioning : Bool
deriving DecidableEq, Repr

/-- `transitionToNewOverlay(newImageUrl, mapBounds)`: the guard returns
immediately while a transition is in flight; otherwise the flag is set and
the new overlay is added at opacity 0. -/
def transitionToNewOverlay (s : OverlayState) (newImageUrl : String) :
    OverlayState :=
  if s.isTransitioning then s
  else
    { s with
        isTransitioning := true
        fadingOverlay := some newImageUrl
        newOpacity := 0 }

/-- One `animate(timestamp)` callback at `elapsed` ms into the fade:
`progress = min(elapsed / 150, 1)` drives both opacities; at full progress
the old overlay is removed, the references are swapped and the flag is
cleared. -/
def animateStep (s : OverlayState) (elapsed : ℚ) : OverlayState :=
  match s.fadingOverlay with
  | none => s
  | some url =>
    let progress := min (elapsed / 150) 1
    let s := { s with newOpacity := progress, oldOpacity := 1 - progress }
    if progress < 1 then s
    else
      { s with
          currentOverlay := some url
          fadingOverlay := none
          isTransitioning := false }

/-! ## Properties of the merge step -/

/-- The timestep sequence is strictly ascending by time index. -/
def strictlyAscendingByTime (l : List (Timestep α)) : Prop :=
  l.Pairwise (fun a b => a.time < b.time)

theorem mergeTimeSeries_pairwise_le (existing incoming : List (Timestep α)) :
    (mergeTimeSeries existing incoming).Pairwise (fun a b => a.time ≤ b.time) := by
  have h := @List.sorted_mergeSort (Timestep α)
    (fun a b => decide (a.time ≤ b.time))
    (fun a b c hab hbc => by
      simp only [decide_eq_true_eq] at hab hbc ⊢
      omega)
    (fun a b => by
      simp only [Bool.or_eq_true, decide_eq_true_eq]
      omega)
    (existing ++ incoming.filter
      (fun t => !(existing.map (fun t => t.time)).contains t.time))
  unfold mergeTimeSeries
  exact h.imp (fun hab => by simpa using hab)

theorem mem_mergeTimeSeries {r : Timestep α} {existing incoming : List (Timestep α)} :
    r ∈ mergeTimeSeries existing incoming ↔
      r ∈ existing ∨ (r ∈ incoming ∧ ∀ e ∈ existing, e.time ≠ r.time) := by
  unfold mergeTimeSeries
  simp only [List.mem_mergeSort, List.mem_append, List.mem_filter,
    Bool.not_eq_eq_eq_not, Bool.not_true, List.contains_eq_any_beq,
    List.any_eq_false, beq_eq_false_iff_ne, ne_eq, List.mem_map,
    forall_exists_index, and_imp, forall_apply_eq_imp_iff₂]
  constructor
  · rintro (h | ⟨hmem, hfresh⟩)
    · exact Or.inl h
    · refine Or.inr ⟨hmem, fun e he heq => ?_⟩
      exact hfresh e he (beq_iff_eq.mpr heq.symm)
  · rintro (h | ⟨hmem, hfresh⟩)
    · exact Or.inl h
    · refine Or.inr ⟨hmem, fun e he hbeq => ?_⟩
      exact hfresh e he (beq_iff_eq.mp hbeq).symm

theorem timesOf_mergeTimeSeries_nodup {existing incoming : List (Timestep α)}
    (hex : (existing.map (fun t => t.time)).Nodup)
    (hin : (incoming.map (fun t => t.time)).Nodup) :
    ((mergeTimeSeries existing incoming).map (fun t => t.time)).Nodup := by
  unfold mergeTimeSeries
  have hperm := List.mergeSort_perm
    (existing ++ incoming.filter
      (fun t => !(existing.map (fun t => t.time)).contains t.time))
    (fun a b : Timestep α => decide (a.time ≤ b.time))
  rw [List.Perm.nodup_iff (hperm.map (fun t => t.time))]
  rw [List.map_append, List.nodup_append]
  refine ⟨hex, ?_, ?_⟩
  · exact hin.sublist ((List.filter_sublist _).map _)
  · intro a ha hb
    obtain ⟨t, htmem, hteq⟩ := List.mem_map.mp hb
    have hfilter := (List.mem_filter.mp htmem).2
    simp only [Bool.not_eq_eq_eq_not, Bool.not_true, List.contains_eq_any_beq,
      List.any_eq_false, beq_eq_false_iff_ne, ne_eq] at hfilter
    obtain ⟨e, hemem, heeq⟩ := List.mem_map.mp ha
    exact hfilter e.time (List.mem_map.mpr ⟨e, hemem, rfl⟩)
      (beq_iff_eq.mpr (hteq.trans heeq.symm))

theorem strictAsc_nodup_times {l : List (Timestep α)}
    (h : strictlyAscendingByTime l) : (l.map (fun t => t.time)).Nodup :=
  List.pairwise_map.mpr (h.imp fun hlt => ne_of_lt hlt)

theorem strictAsc_mergeTimeSeries {existing incoming : List (Timestep α)}
    (hex : (existing.map (fun t => t.time)).Nodup)
    (hin : (incoming.map (fun t => t.time)).Nodup) :
    strictlyAscendingByTime (mergeTimeSeries existing incoming) := by
  have hle := mergeTimeSeries_pairwise_le existing incoming
  have hne : (mergeTimeSeries existing incoming).Pairwise
      (fun a b => a.time ≠ b.time) :=
    List.pairwise_map.mp (timesOf_mergeTimeSeries_nodup hex hin)
  exact (hle.and hne).imp (fun hab => lt_of_le_of_ne hab.1 hab.2)

/-- Claim C1: merging any set of batch payloads, in any arrival order and
through any of the three merge paths (all of which update the series with
`mergeTimeSeries`), keeps `weatherData.time_series` strictly ascending by
time index: each merge drops incoming duplicates, concatenates and sorts,
so the stored sequence has unique ascending time values regardless of
which batch arrived first. -/
theorem mergeOrdering_strictAsc (initial : List (Timestep α))
    (batches : List (List (Timestep α)))
    (hinit : strictlyAscendingByTime initial)
    (hb : ∀ b ∈ batches, (b.map (fun t => t.time)).Nodup) :
    strictlyAscendingByTime (batches.foldl mergeTimeSeries initial) := by
  induction batches generalizing initial with
  | nil => exact hinit
  | cons b bs ih =>
    refine ih _ ?_ (fun x hx => hb x (List.mem_cons_of_mem _ hx))
    exact strictAsc_mergeTimeSeries (strictAsc_nodup_times hinit)
      (hb b (List.mem_cons_self _ _))

/-- Witness for C1: two single-record batches (times 5 and 3) merged after
an initial series with times 0, 1 leave a strictly ascending series. -/
theorem mergeOrdering_strictAsc_witness :
    strictlyAscendingByTime
      (List.foldl mergeTimeSeries [⟨0, (0 : Nat)⟩, ⟨1, 0⟩] [[⟨5, 0⟩], [⟨3, 0⟩]]) :=
  mergeOrdering_strictAsc _ _
    (by unfold strictlyAscendingByTime; decide) (by decide)

/-- Claim C3: duplicate time indices resolve first-writer-wins.  If record
`ra` (arriving in batch `A`) is in the merged series, then after a further
merge of batch `B` it is still there, and a record `rb` for the same time
index can be in the result only if it was already present before `B` was
merged — an incoming duplicate never overwrites. -/
theorem firstWriterWins (l A B : List (Timestep α)) (ra rb : Timestep α)
    (hA : ra ∈ mergeTimeSeries l A) (ht : rb.time = ra.time) :
    ra ∈ mergeTimeSeries (mergeTimeSeries l A) B ∧
      (rb ∈ mergeTimeSeries (mergeTimeSeries l A) B → rb ∈ mergeTimeSeries l A) := by
  constructor
  · exact mem_mergeTimeSeries.mpr (Or.inl hA)
  · intro hmem
    rcases mem_mergeTimeSeries.mp hmem with h | ⟨_, hfresh⟩
    · exact h
    · exact absurd ht.symm (hfresh ra hA)

/-- Witness for C3: batches `A = [{time 5, payload 1}]` and
`B = [{time 5, payload 2}]`; after merging `A` then `B`, batch `A`'s
record is retained and `B`'s can only be present if it already was. -/
theorem firstWriterWins_witness :
    (⟨5, 1⟩ : Timestep Nat) ∈ mergeTimeSeries (mergeTimeSeries [] [⟨5, 1⟩]) [⟨5, 2⟩] ∧
      ((⟨5, 2⟩ : Timestep Nat) ∈ mergeTimeSeries (mergeTimeSeries [] [⟨5, 1⟩]) [⟨5, 2⟩] →
        (⟨5, 2⟩ : Timestep Nat) ∈ mergeTimeSeries [] [⟨5, 1⟩]) :=
  firstWriterWins [] [⟨5, 1⟩] [⟨5, 2⟩] ⟨5, 1⟩ ⟨5, 2⟩
    (mem_mergeTimeSeries.mpr (Or.inr ⟨by decide, by decide⟩)) rfl

theorem timesOf_subset_mergeTimeSeries (existing incoming : List (Timestep α)) :
    ∀ t ∈ incoming,
      t.time ∈ (mergeTimeSeries existing incoming).map (fun t => t.time) := by
  intro t ht
  by_cases hc : ∃ e ∈ existing, e.time = t.time
  · obtain ⟨e, he, heq⟩ := hc
    exact List.mem_map.mpr ⟨e, mem_mergeTimeSeries.mpr (Or.inl he), heq⟩
  · push_neg at hc
    exact List.mem_map.mpr
      ⟨t, mem_mergeTimeSeries.mpr (Or.inr ⟨ht, fun e he => hc e he⟩), rfl⟩

theorem mergeTimeSeries_self_absorb (l p : List (Timestep α)) :
    mergeTimeSeries (mergeTimeSeries l p) p = mergeTimeSeries l p := by
  have hfilter : p.filter
      (fun t => !((mergeTimeSeries l p).map (fun t => t.time)).contains t.time) = [] := by
    rw [List.filter_eq_nil_iff]
    intro t ht
    have hmem := timesOf_subset_mergeTimeSeries l p t ht
    simp only [Bool.not_eq_true', Bool.not_eq_false, List.contains_eq_any_beq,
      List.any_eq_true]
    exact ⟨t.time, hmem, by simp⟩
  show ((mergeTimeSeries l p) ++ p.filter
      (fun t => !((mergeTimeSeries l p).map (fun t => t.time)).contains t.time)).mergeSort
      (fun a b => a.time ≤ b.time) = mergeTimeSeries l p
  rw [hfilter, List.append_nil]
  exact List.mergeSort_of_sorted
    ((mergeTimeSeries_pairwise_le l p).imp (fun h => decide_eq_true h))

theorem recordLoadedBatch_contains (bi : BatchInfo) (batchNumber : Int) :
    (recordLoadedBatch bi batchNumber).loadedBatches.contains batchNumber = true := by
  unfold recordLoadedBatch
  split
  · assumption
  · simp only [List.contains_eq_any_beq, List.any_eq_true]
    exact ⟨batchNumber, List.mem_mergeSort.mpr (by simp), by simp⟩

theorem recordLoadedBatch_idem (bi : BatchInfo) (batchNumber : Int) :
    recordLoadedBatch (recordLoadedBatch bi batchNumber) batchNumber
      = recordLoadedBatch bi batchNumber := by
  set m := recordLoadedBatch bi batchNumber with hm
  have hc := recordLoadedBatch_contains bi batchNumber
  rw [← hm] at hc
  have hmem : batchNumber ∈ m.loadedBatches := by simpa using hc
  unfold recordLoadedBatch
  simp [hmem]

/-- Claim C4: merging the same batch payload twice (two `loadCachedBatch`
dispatches with identical data) against an initialized dataset leaves
`weatherData` (hence `time_series`) and `batchInfo` (hence
`loadedBatches`) identical to merging it once: duplicates are dropped, not
appended, and the batch number is recorded at most once. -/
theorem loadCachedBatch_idempotent (s : WeatherState α) (batchNumber : Int)
    (data : WeatherData α) (wd : WeatherData α) (bi : BatchInfo)
    (hwd : s.weatherData = some wd) (hbi : s.batchInfo = some bi) :
    (loadCachedBatch (loadCachedBatch s batchNumber data) batchNumber data).weatherData
        = (loadCachedBatch s batchNumber data).weatherData ∧
      (loadCachedBatch (loadCachedBatch s batchNumber data) batchNumber data).batchInfo
        = (loadCachedBatch s batchNumber data).batchInfo := by
  simp only [loadCachedBatch, hwd, hbi]
  exact ⟨by simp [mergeTimeSeries_self_absorb],
    by simp [recordLoadedBatch_idem]⟩

/-! ## Concrete sample data for witnesses -/

/-- A small payload metadata block shared by the concrete witnesses. -/
def sampleMetadata : Metadata :=
  { batch_info := { total_batches := 3, batch_size := 5 }
    total_timestamps := 15
    initial_timestamp := "2025-01-01_00:00:00"
    final_timestamp := "2025-01-02_00:00:00"
    variable_scales := [("T2", 10)] }

/-- A 1-row by 3-column grid shared by the concrete witnesses. -/
def sampleGridInfo : GridInfo :=
  { corner := (0, 0), size := (1, 3), steps := (1, 1) }

/-- A two-timestep batch payload (times 5 and 6). -/
def samplePayload : WeatherData Nat :=
  { grid_info := sampleGridInfo
    time_series := [⟨5, 0⟩, ⟨6, 0⟩]
    metadata := sampleMetadata }

/-- An initialized slice state: batch 1 loaded with timesteps 0 and 1. -/
def sampleState : WeatherState Nat :=
  { weatherData := some
      { grid_info := sampleGridInfo
        time_series := [⟨0, 0⟩, ⟨1, 0⟩]
        metadata := sampleMetadata }
    loading := false
    error := none
    selectedVariable := "T2"
    currentTimeIndex := 0
    animationSpeed := 1000
    batchInfo := some
      { currentBatch := 1, totalBatches := 3, batchSize := 5
        loadedBatches := [1], totalTimestamps := 15
        initialTimestamp := "2025-01-01_00:00:00"
        finalTimestamp := "2025-01-02_00:00:00" }
    fetchingBatches := []
    cacheStats := { hits := 0, misses := 0, totalSize := 0 } }

/-- Witness for C4: merging `samplePayload` twice into `sampleState` gives
the same `weatherData` and `batchInfo` as merging it once. -/
theorem loadCachedBatch_idempotent_witness :
    (loadCachedBatch (loadCachedBatch sampleState 2 samplePayload) 2 samplePayload).weatherData
        = (loadCachedBatch sampleState 2 samplePayload).weatherData ∧
      (loadCachedBatch (loadCachedBatch sampleState 2 samplePayload) 2 samplePayload).batchInfo
        = (loadCachedBatch sampleState 2 samplePayload).batchInfo :=
  loadCachedBatch_idempotent sampleState 2 samplePayload _ _ rfl rfl

/-! ## C2: playback wrap point -/

/-- A state with 5 loaded timesteps (time indices 0–4) out of a declared
total of 10, with playback at index 4. -/
def c2State : WeatherState Nat :=
  { weatherData := some
      { grid_info := sampleGridInfo
        time_series := [⟨0, 0⟩, ⟨1, 0⟩, ⟨2, 0⟩, ⟨3, 0⟩, ⟨4, 0⟩]
        metadata := sampleMetadata }
    loading := false
    error := none
    selectedVariable := "T2"
    currentTimeIndex := 4
    animationSpeed := 1000
    batchInfo := some
      { currentBatch := 1, totalBatches := 2, batchSize := 5
        loadedBatches := [1], totalTimestamps := 10
        initialTimestamp := "2025-01-01_00:00:00"
        finalTimestamp := "2025-01-02_00:00:00" }
    fetchingBatches := []
    cacheStats := { hits := 0, misses := 0, totalSize := 0 } }

/-- Counterexample for C2: with 5 loaded timesteps (indices 0–4) but a
declared `totalTimestamps` of 10, `advanceTime` moves from index 4 to the
unloaded index 5, not to 0 — the wrap point is the declared total, not the
last loaded index. -/
theorem advanceTime_wrap_counterexample :
    (c2State.weatherData.map (fun wd => wd.time_series.map (fun t => t.time)))
        = some [0, 1, 2, 3, 4] ∧
      c2State.currentTimeIndex = 4 ∧
      (advanceTime c2State).currentTimeIndex = 5 ∧
      (advanceTime c2State).currentTimeIndex ≠ 0 := by
  refine ⟨rfl, rfl, ?_, ?_⟩ <;> decide

/-- Amended C2: `advanceTime` wraps at the declared theoretical total:
while `currentTimeIndex < batchInfo.totalTimestamps - 1` it advances by
one (even into indices with no loaded timestep), and it resets to 0 only
once the index reaches `totalTimestamps - 1`. -/
theorem advanceTime_wrapsAtDeclaredTotal (s : WeatherState α) (bi : BatchInfo)
    (h : s.batchInfo = some bi) :
    (s.currentTimeIndex < bi.totalTimestamps - 1 →
      (advanceTime s).currentTimeIndex = s.currentTimeIndex + 1) ∧
    (bi.totalTimestamps - 1 ≤ s.currentTimeIndex →
      (advanceTime s).currentTimeIndex = 0) := by
  simp only [advanceTime, h]
  constructor
  · intro hlt
    rw [if_pos hlt]
  · intro hge
    rw [if_neg (by omega)]

/-- Witness for the amended C2 at `c2State` (index 4, declared total 10):
the first branch applies and the index advances to 5. -/
theorem advanceTime_wrapsAtDeclaredTotal_witness :
    ((4 : Int) < 10 - 1 → (advanceTime c2State).currentTimeIndex = 4 + 1) ∧
      ((10 : Int) - 1 ≤ 4 → (advanceTime c2State).currentTimeIndex = 0) :=
  advanceTime_wrapsAtDeclaredTotal c2State _ rfl

/-! ## C5: cache expiry -/

/-- Claim C5: cache expiry is expire-on-read.  If the keyed lookup finds
entry `e`, then when `e` is older than 12 hours `get` resolves `null` and
deletes the entry from the store, and when younger it resolves the payload
and leaves the store unchanged. -/
theorem cacheExpireOnRead (now : Int) (store : List (CacheEntry α))
    (batchNumber : Int) (e : CacheEntry α)
    (hfind : store.find? (fun x => x.batchNumber == batchNumber) = some e) :
    (CACHE_DURATION < now - e.timestamp →
      (IndexedDBCache.get now store batchNumber).1 = none ∧
      (IndexedDBCache.get now store batchNumber).2
          = store.filter (fun x => x.batchNumber != batchNumber) ∧
      e ∉ (IndexedDBCache.get now store batchNumber).2) ∧
    (now - e.timestamp < CACHE_DURATION →
      (IndexedDBCache.get now store batchNumber).1 = some e.data ∧
      (IndexedDBCache.get now store batchNumber).2 = store) := by
  have hpred := List.find?_some hfind
  unfold IndexedDBCache.get
  rw [hfind]
  dsimp only
  constructor
  · intro hold
    rw [if_neg (by omega)]
    refine ⟨rfl, rfl, fun hmem => ?_⟩
    have hne := (List.mem_filter.mp hmem).2
    simp only [bne_iff_ne, ne_eq] at hne
    exact hne (beq_iff_eq.mp hpred)
  · intro hyoung
    rw [if_pos hyoung]
    exact ⟨rfl, rfl⟩

/-- Witness for C5: a store holding batch 1 with insertion timestamp 0,
read at two different clock values. -/
theorem cacheExpireOnRead_witness :
    (CACHE_DURATION < 2 * CACHE_DURATION - 0 →
      (IndexedDBCache.get (2 * CACHE_DURATION)
          [(⟨1, 42, 0⟩ : CacheEntry Nat)] 1).1 = none ∧
      (IndexedDBCache.get (2 * CACHE_DURATION) [(⟨1, 42, 0⟩ : CacheEntry Nat)] 1).2
          = List.filter (fun x => x.batchNumber != 1) [(⟨1, 42, 0⟩ : CacheEntry Nat)] ∧
      (⟨1, 42, 0⟩ : CacheEntry Nat) ∉
        (IndexedDBCache.get (2 * CACHE_DURATION) [(⟨1, 42, 0⟩ : CacheEntry Nat)] 1).2) ∧
    (2 * CACHE_DURATION - 0 < CACHE_DURATION →
      (IndexedDBCache.get (2 * CACHE_DURATION) [(⟨1, 42, 0⟩ : CacheEntry Nat)] 1).1
          = some 42 ∧
      (IndexedDBCache.get (2 * CACHE_DURATION) [(⟨1, 42, 0⟩ : CacheEntry Nat)] 1).2
          = [(⟨1, 42, 0⟩ : CacheEntry Nat)]) :=
  cacheExpireOnRead (2 * CACHE_DURATION) [⟨1, 42, 0⟩] 1 ⟨1, 42, 0⟩ (by decide)

/-! ## C6: cache failure handling -/

/-- Counterexample for C6: a storage-layer error in `IndexedDBCache.get`
does not resolve `null` — it is propagated as a rejection, the
`fetchWeatherBatch` thunk for batch 1 therefore rejects (without falling
back to the network, which here would have succeeded), and the rejected
reducer puts the slice into the fatal initialization-error state. -/
theorem cacheErrorPropagates_counterexample :
    IndexedDBCache.getResult
        (Except.error "storage failure" : Except String (Option (CacheEntry (WeatherData Nat)))) 0
        = Except.error "storage failure" ∧
      IndexedDBCache.getResult
        (Except.error "storage failure" : Except String (Option (CacheEntry (WeatherData Nat)))) 0
        ≠ Except.ok none ∧
      fetchWeatherBatchThunk (Except.error "storage failure")
        (Except.ok samplePayload) 0 = Except.error "storage failure" ∧
      (fetchWeatherBatchRejected (initialState (α := Nat)) 1 (some "storage failure")).error
        = some "storage failure" ∧
      (fetchWeatherBatchRejected (initialState (α := Nat)) 1 (some "storage failure")).loading
        = false ∧
      (fetchWeatherBatchRejected (initialState (α := Nat)) 1 (some "storage failure")).weatherData
        = none := by
  refine ⟨rfl, by intro h; exact Except.noConfusion h, rfl, ?_, ?_, ?_⟩ <;> rfl

/-- Amended C6: only App.jsx's `checkCache` (used for background batches
`n ≥ 2`) absorbs storage errors as a miss; `IndexedDBCache.get` propagates
them as rejections, so a cache read error while requesting batch 1 rejects
the thunk and does produce the initialization-error state. -/
theorem checkCacheAbsorbsErrors :
    (∀ (α : Type) (msg : String) (now : Int),
      checkCache (Except.error msg : Except String (Option (CacheEntry α))) now = none) ∧
    (∀ (α : Type) (msg : String) (now : Int),
      IndexedDBCache.getResult (Except.error msg : Except String (Option (CacheEntry α))) now
        = Except.error msg) ∧
    (∀ (α : Type) (s : WeatherState α) (msg : String),
      (fetchWeatherBatchRejected s 1 (some msg)).error = some msg ∧
      (fetchWeatherBatchRejected s 1 (some msg)).loading = false ∧
      (fetchWeatherBatchRejected s 1 (some msg)).weatherData = none) := by
  refine ⟨fun α msg now => rfl, fun α msg now => rfl, fun α s msg => ⟨?_, ?_, ?_⟩⟩ <;>
    simp [fetchWeatherBatchRejected]

/-! ## C7: color interpolation boundaries -/

theorem mathRound_intCast (k : Int) : mathRound (k : ℚ) = k := by
  unfold mathRound
  rw [Int.floor_int_add]
  norm_num

/-- Claim C7: for each supported variable type (whose color-stop array is
nonempty), `interpolateColor` returns the first stop's color whenever
`value ≤ min`, the last stop's color whenever `value ≥ max`, and for
`min = max` always the first stop's color, the degenerate range being
handled by a branch taken before any division. -/
theorem interpolateColor_boundary (vt : String) (colorArray : List RGB)
    (h : colorScale vt = some colorArray) (hne : colorArray ≠ [])
    (v mn mx : ℚ) :
    (mn < mx → v ≤ mn →
      interpolateColor (some v) (some mn) (some mx) (some vt)
        = some (rgbString (colorArray.getD 0 ⟨0, 0, 0⟩))) ∧
    (mn < mx → mx ≤ v →
      interpolateColor (some v) (some mn) (some mx) (some vt)
        = some (rgbString (colorArray.getD (colorArray.length - 1) ⟨0, 0, 0⟩))) ∧
    (mn = mx →
      interpolateColor (some v) (some mn) (some mx) (some vt)
        = some (rgbString (colorArray.getD 0 ⟨0, 0, 0⟩))) := by
  have hlen : 1 ≤ colorArray.length := List.length_pos.mpr hne
  refine ⟨?_, ?_, ?_⟩
  · intro hlt hvle
    have hq : (v - mn) / (mx - mn) ≤ 0 :=
      div_nonpos_iff.mpr (Or.inr ⟨by linarith, by linarith⟩)
    have hnorm : max 0 (min 1 ((v - mn) / (mx - mn))) = 0 :=
      max_eq_left (by rw [min_eq_right (le_trans hq zero_le_one)]; exact hq)
    simp only [interpolateColor, h]
    rw [if_neg (by exact ne_of_lt hlt), hnorm]
    simp only [zero_mul, Int.floor_zero, Int.toNat_zero, zero_sub, neg_zero,
      Int.cast_zero, sub_zero, mul_zero, add_zero, mathRound_intCast]
  · intro hlt hvge
    have hq : 1 ≤ (v - mn) / (mx - mn) :=
      (one_le_div (by linarith)).mpr (by linarith)
    have hnorm : max 0 (min 1 ((v - mn) / (mx - mn))) = 1 := by
      rw [min_eq_left hq]
      exact max_eq_right zero_le_one
    have hfloor : ⌊(1 : ℚ) * ((colorArray.length : ℚ) - 1)⌋
        = (colorArray.length : Int) - 1 := by
      rw [one_mul]
      rw [show ((colorArray.length : ℚ) - 1) = (((colorArray.length : Int) - 1 : Int) : ℚ)
        by push_cast; ring]
      exact Int.floor_intCast _
    have htoNat : ((colorArray.length : Int) - 1).toNat = colorArray.length - 1 := by
      omega
    simp only [interpolateColor, h]
    rw [if_neg (by exact ne_of_lt hlt), hnorm, hfloor]
    rw [min_eq_right (by omega : (colorArray.length : Int) - 1 + 1 ≥ (colorArray.length : Int) - 1)]
    simp only [htoNat]
    rw [show (1 : ℚ) * ((colorArray.length : ℚ) - 1) - (((colorArray.length : Int) - 1 : Int) : ℚ)
      = 0 by push_cast; ring]
    simp only [zero_mul, add_zero, mathRound_intCast]
  · intro heq
    simp only [interpolateColor, h]
    rw [if_pos heq]

/-- Witness for C7 on the T2 ramp: value at the minimum of a proper range
gives the first stop, at the maximum the last stop, and a degenerate range
gives the first stop. -/
theorem interpolateColor_boundary_witness :
    ((0 : ℚ) < 50 → (0 : ℚ) ≤ 0 →
      interpolateColor (some 0) (some 0) (some 50) (some "T2")
        = some (rgbString (List.getD [⟨0, 0, 255⟩, ⟨0, 128, 255⟩, ⟨0, 255, 255⟩,
            ⟨128, 255, 0⟩, ⟨255, 255, 0⟩, ⟨255, 128, 0⟩, ⟨255, 0, 0⟩] 0 ⟨0, 0, 0⟩))) ∧
    ((0 : ℚ) < 50 → (50 : ℚ) ≤ 0 →
      interpolateColor (some 0) (some 0) (some 50) (some "T2")
        = some (rgbString (List.getD [⟨0, 0, 255⟩, ⟨0, 128, 255⟩, ⟨0, 255, 255⟩,
            ⟨128, 255, 0⟩, ⟨255, 255, 0⟩, ⟨255, 128, 0⟩, ⟨255, 0, 0⟩]
            (List.length [(⟨0, 0, 255⟩ : RGB), ⟨0, 128, 255⟩, ⟨0, 255, 255⟩,
              ⟨128, 255, 0⟩, ⟨255, 255, 0⟩, ⟨255, 128, 0⟩, ⟨255, 0, 0⟩] - 1) ⟨0, 0, 0⟩))) ∧
    ((0 : ℚ) = 50 →
      interpolateColor (some 0) (some 0) (some 50) (some "T2")
        = some (rgbString (List.getD [⟨0, 0, 255⟩, ⟨0, 128, 255⟩, ⟨0, 255, 255⟩,
            ⟨128, 255, 0⟩, ⟨255, 255, 0⟩, ⟨255, 128, 0⟩, ⟨255, 0, 0⟩] 0 ⟨0, 0, 0⟩))) :=
  interpolateColor_boundary "T2" _ rfl (by decide) 0 0 50

/-! ## C8: missing-data rendering -/

/-- A timestep whose T2 array has a missing (null/undefined/NaN) middle
entry. -/
def c8TimeData : Timestep VarTable :=
  ⟨0, [("T2", [some (-10), none, some 10])]⟩

/-- A one-timestep dataset on the 1×3 sample grid with T2 scale 1. -/
def c8WeatherData : WeatherData VarTable :=
  { grid_info := sampleGridInfo
    time_series := [c8TimeData]
    metadata :=
      { batch_info := { total_batches := 1, batch_size := 1 }
        total_timestamps := 1
        initial_timestamp := "2025-01-01_00:00:00"
        final_timestamp := "2025-01-01_00:00:00"
        variable_scales := [("T2", 1)] } }

/-- Counterexample for C8: the missing middle cell is coerced to value 0
by `(v || 0)` in `processGridData`, and is then filled with the real ramp
color of 0 on the frame's range [-10, 10] — `rgb(128, 255, 0)` — not with
the neutral gray `rgb(128, 128, 128)`. -/
theorem missingValueRendersNonGray_counterexample :
    ((processGridData c8WeatherData c8TimeData "T2").map
        (fun pg => pg.cells.map (fun c => c.value))) = some [-10, 0, 10] ∧
      ((processGridData c8WeatherData c8TimeData "T2").map
          (fun pg => pg.cells.map (fun c => cellFillStyle c pg.minValue pg.maxValue "T2")))
        = some [some "rgb(0, 0, 255)", some "rgb(128, 255, 0)", some "rgb(255, 0, 0)"] ∧
      "rgb(128, 255, 0)" ≠ "rgb(128, 128, 128)" := by
  refine ⟨?_, ?_, by decide⟩
  · norm_num [processGridData, c8WeatherData, c8TimeData, sampleGridInfo,
      VarTable.lookup, List.find?, scaleOf, jsOr0, buildCells, mathMin, mathMax,
      min_def, max_def, List.range_succ]
  · norm_num [processGridData, c8WeatherData, c8TimeData, sampleGridInfo,
      VarTable.lookup, List.find?, scaleOf, jsOr0, buildCells, mathMin, mathMax,
      min_def, max_def, List.range_succ, cellFillStyle, interpolateColor,
      colorScale, mathRound, rgbString]
    decide

/-- Amended C8: a missing/null/undefined/NaN cell value never fails and
never blocks the frame, but it is coerced to 0 by `processGridData`
(`(v || 0) / scale`) and rendered with the color of value 0; the neutral
gray `rgb(128, 128, 128)` is produced only when `interpolateColor` itself
receives a null/undefined value or variable type. -/
theorem missingValueCoercedToZero :
    (∀ (values : List (Option ℚ)) (scale : ℚ) (i : Nat),
      values[i]? = some none →
      (values.map (fun v => jsOr0 v / scale))[i]? = some 0) ∧
    (∀ (minOpt maxOpt : Option ℚ) (vtOpt : Option String),
      interpolateColor none minOpt maxOpt vtOpt = some (rgbString ⟨128, 128, 128⟩)) ∧
    (∀ (wd : WeatherData VarTable) (td : Timestep VarTable) (varName : String)
        (values : List (Option ℚ)),
      VarTable.lookup td.vars varName = some values → values ≠ [] →
      (processGridData wd td varName).isSome = true) := by
  refine ⟨?_, ?_, ?_⟩
  · intro values scale i h
    rw [List.getElem?_map, h]
    simp [jsOr0]
  · intro minOpt maxOpt vtOpt
    cases vtOpt <;> rfl
  · intro wd td varName values hv hne
    simp only [processGridData, hv]
    rw [if_neg (by simpa using hne)]
    rfl

/-- Witness for the amended C8 at the concrete missing-value dataset. -/
theorem missingValueCoercedToZero_witness :
    ([some (-10 : ℚ), none, some 10].map (fun v => jsOr0 v / (1 : ℚ)))[1]? = some 0 ∧
      interpolateColor none (some 0) (some 1) (some "T2")
        = some (rgbString ⟨128, 128, 128⟩) ∧
      (processGridData c8WeatherData c8TimeData "T2").isSome = true :=
  ⟨missingValueCoercedToZero.1 [some (-10), none, some 10] 1 1 rfl,
    missingValueCoercedToZero.2.1 (some 0) (some 1) (some "T2"),
    missingValueCoercedToZero.2.2 c8WeatherData c8TimeData "T2"
      [some (-10), none, some 10] rfl (by decide)⟩

/-! ## C9: cross-fade exclusivity -/

/-- Claim C9: at most one cross-fade is in flight.  A transition request
while `isTransitioningRef` is set is ignored outright; a request from an
idle state starts a fade whose every animation frame before the 150 ms
duration keeps the flag set (so further requests are still ignored and
leave the state untouched); once a frame at or past 150 ms completes the
fade (old overlay removed, `currentOverlayRef` swapped to the new one, flag
cleared), a subsequent request is accepted and starts the next fade. -/
theorem crossFadeExclusive (s t : OverlayState) (url url2 : String) (elapsed : ℚ)
    (hs : s.isTransitioning = true) (ht : t.isTransitioning = false) :
    transitionToNewOverlay s url = s ∧
      (transitionToNewOverlay t url).isTransitioning = true ∧
      (elapsed < 150 →
        (animateStep (transitionToNewOverlay t url) elapsed).isTransitioning = true ∧
        transitionToNewOverlay (animateStep (transitionToNewOverlay t url) elapsed) url2
          = animateStep (transitionToNewOverlay t url) elapsed) ∧
      (150 ≤ elapsed →
        (animateStep (transitionToNewOverlay t url) elapsed).isTransitioning = false ∧
        (animateStep (transitionToNewOverlay t url) elapsed).currentOverlay = some url ∧
        (transitionToNewOverlay (animateStep (transitionToNewOverlay t url) elapsed) url2).isTransitioning
          = true ∧
        (transitionToNewOverlay (animateStep (transitionToNewOverlay t url) elapsed) url2).fadingOverlay
          = some url2) := by
  have hguard : transitionToNewOverlay s url = s := by
    unfold transitionToNewOverlay
    simp [hs]
  have hstart : transitionToNewOverlay t url =
      { t with isTransitioning := true, fadingOverlay := some url, newOpacity := 0 } := by
    unfold transitionToNewOverlay
    simp [ht]
  refine ⟨hguard, by rw [hstart], ?_, ?_⟩
  · intro hfast
    have hp : min (elapsed / 150) 1 < 1 :=
      lt_of_le_of_lt (min_le_left _ _) (by rw [div_lt_one (by norm_num)]; linarith)
    have hmid : animateStep (transitionToNewOverlay t url) elapsed =
        { t with
            isTransitioning := true
            fadingOverlay := some url
            newOpacity := min (elapsed / 150) 1
            oldOpacity := 1 - min (elapsed / 150) 1 } := by
      rw [hstart]
      unfold animateStep
      simp [hp]
    refine ⟨by rw [hmid], ?_⟩
    rw [hmid]
    unfold transitionToNewOverlay
    simp
  · intro hslow
    have hp : min (elapsed / 150) 1 = 1 :=
      min_eq_right (by rw [le_div_iff₀ (by norm_num)]; linarith)
    have hdone : animateStep (transitionToNewOverlay t url) elapsed =
        { t with
            isTransitioning := false
            currentOverlay := some url
            fadingOverlay := none
            newOpacity := 1
            oldOpacity := 0 } := by
      rw [hstart]
      unfold animateStep
      simp [hp]
    refine ⟨by rw [hdone], by rw [hdone], ?_, ?_⟩ <;>
      · rw [hdone]
        unfold transitionToNewOverlay
        simp

/-- Witness for C9 at a concrete in-flight state and a concrete idle
state, sampled mid-fade at 75 ms. -/
theorem crossFadeExclusive_witness :
    transitionToNewOverlay ⟨some "a", some "b", 0, 1, true⟩ "c"
        = ⟨some "a", some "b", 0, 1, true⟩ ∧
      (transitionToNewOverlay ⟨some "a", none, 1, 0, false⟩ "c").isTransitioning = true ∧
      ((75 : ℚ) < 150 →
        (animateStep (transitionToNewOverlay ⟨some "a", none, 1, 0, false⟩ "c") 75).isTransitioning
          = true ∧
        transitionToNewOverlay
            (animateStep (transitionToNewOverlay ⟨some "a", none, 1, 0, false⟩ "c") 75) "d"
          = animateStep (transitionToNewOverlay ⟨some "a", none, 1, 0, false⟩ "c") 75) ∧
      ((150 : ℚ) ≤ 75 →
        (animateStep (transitionToNewOverlay ⟨some "a", none, 1, 0, false⟩ "c") 75).isTransitioning
          = false ∧
        (animateStep (transitionToNewOverlay ⟨some "a", none, 1, 0, false⟩ "c") 75).currentOverlay
          = some "c" ∧
        (transitionToNewOverlay
            (animateStep (transitionToNewOverlay ⟨some "a", none, 1, 0, false⟩ "c") 75) "d").isTransitioning
          = true ∧
        (transitionToNewOverlay
            (animateStep (transitionToNewOverlay ⟨some "a", none, 1, 0, false⟩ "c") 75) "d").fadingOverlay
          = some "d") :=
  crossFadeExclusive ⟨some "a", some "b", 0, 1, true⟩ ⟨some "a", none, 1, 0, false⟩
    "c" "d" 75 rfl rfl

/-! ## C10: payload delivery before initialization -/

/-- Claim C10: a batch payload delivered while no dataset is initialized
(`weatherData` or `batchInfo` null) is silently discarded by both delivery
paths: `weatherData` and `batchInfo` are unchanged (so no `loadedBatches`
change), and the only fields modified are the cacheStats counters and — on
the worker path — the `fetchingBatches` list; the payload is not stored
anywhere for a later merge. -/
theorem uninitializedPayloadDiscarded (s : WeatherState α) (batchNumber : Int)
    (data : WeatherData α) (h : s.weatherData = none ∨ s.batchInfo = none) :
    ((loadCachedBatch s batchNumber data).weatherData = s.weatherData ∧
      (loadCachedBatch s batchNumber data).batchInfo = s.batchInfo ∧
      (loadCachedBatch s batchNumber data).loading = s.loading ∧
      (loadCachedBatch s batchNumber data).error = s.error ∧
      (loadCachedBatch s batchNumber data).selectedVariable = s.selectedVariable ∧
      (loadCachedBatch s batchNumber data).currentTimeIndex = s.currentTimeIndex ∧
      (loadCachedBatch s batchNumber data).animationSpeed = s.animationSpeed ∧
      (loadCachedBatch s batchNumber data).fetchingBatches = s.fetchingBatches ∧
      (loadCachedBatch s batchNumber data).cacheStats
        = { s.cacheStats with hits := s.cacheStats.hits + 1 }) ∧
    ((fetchWeatherBatchFromWorkerFulfilled s batchNumber data).weatherData = s.weatherData ∧
      (fetchWeatherBatchFromWorkerFulfilled s batchNumber data).batchInfo = s.batchInfo ∧
      (fetchWeatherBatchFromWorkerFulfilled s batchNumber data).loading = s.loading ∧
      (fetchWeatherBatchFromWorkerFulfilled s batchNumber data).error = s.error ∧
      (fetchWeatherBatchFromWorkerFulfilled s batchNumber data).selectedVariable
        = s.selectedVariable ∧
      (fetchWeatherBatchFromWorkerFulfilled s batchNumber data).currentTimeIndex
        = s.currentTimeIndex ∧
      (fetchWeatherBatchFromWorkerFulfilled s batchNumber data).animationSpeed
        = s.animationSpeed ∧
      (fetchWeatherBatchFromWorkerFulfilled s batchNumber data).fetchingBatches
        = s.fetchingBatches.filter (fun b => b != batchNumber) ∧
      (fetchWeatherBatchFromWorkerFulfilled s batchNumber data).cacheStats
        = { s.cacheStats with misses := s.cacheStats.misses + 1 }) := by
  rcases h with h | h
  · simp [loadCachedBatch, fetchWeatherBatchFromWorkerFulfilled, h]
  · cases hwd : s.weatherData <;>
      simp [loadCachedBatch, fetchWeatherBatchFromWorkerFulfilled, h, hwd]

/-- Witness for C10: the uninitialized `initialState` receiving batch 2's
payload through both delivery paths. -/
theorem uninitializedPayloadDiscarded_witness :
    ((loadCachedBatch (initialState (α := Nat)) 2 samplePayload).weatherData
        = (initialState (α := Nat)).weatherData ∧
      (loadCachedBatch (initialState (α := Nat)) 2 samplePayload).batchInfo
        = (initialState (α := Nat)).batchInfo ∧
      (loadCachedBatch (initialState (α := Nat)) 2 samplePayload).loading
        = (initialState (α := Nat)).loading ∧
      (loadCachedBatch (initialState (α := Nat)) 2 samplePayload).error
        = (initialState (α := Nat)).error ∧
      (loadCachedBatch (initialState (α := Nat)) 2 samplePayload).selectedVariable
        = (initialState (α := Nat)).selectedVariable ∧
      (loadCachedBatch (initialState (α := Nat)) 2 samplePayload).currentTimeIndex
        = (initialState (α := Nat)).currentTimeIndex ∧
      (loadCachedBatch (initialState (α := Nat)) 2 samplePayload).animationSpeed
        = (initialState (α := Nat)).animationSpeed ∧
      (loadCachedBatch (initialState (α := Nat)) 2 samplePayload).fetchingBatches
        = (initialState (α := Nat)).fetchingBatches ∧
      (loadCachedBatch (initialState (α := Nat)) 2 samplePayload).cacheStats
        = { (initialState (α := Nat)).cacheStats with
              hits := (initialState (α := Nat)).cacheStats.hits + 1 }) ∧
    ((fetchWeatherBatchFromWorkerFulfilled (initialState (α := Nat)) 2 samplePayload).weatherData
        = (initialState (α := Nat)).weatherData ∧
      (fetchWeatherBatchFromWorkerFulfilled (initialState (α := Nat)) 2 samplePayload).batchInfo
        = (initialState (α := Nat)).batchInfo ∧
      (fetchWeatherBatchFromWorkerFulfilled (initialState (α := Nat)) 2 samplePayload).loading
        = (initialState (α := Nat)).loading ∧
      (fetchWeatherBatchFromWorkerFulfilled (initialState (α := Nat)) 2 samplePayload).error
        = (initialState (α := Nat)).error ∧
      (fetchWeatherBatchFromWorkerFulfilled (initialState (α := Nat)) 2 samplePayload).selectedVariable
        = (initialState (α := Nat)).selectedVariable ∧
      (fetchWeatherBatchFromWorkerFulfilled (initialState (α := Nat)) 2 samplePayload).currentTimeIndex
        = (initialState (α := Nat)).currentTimeIndex ∧
      (fetchWeatherBatchFromWorkerFulfilled (initialState (α := Nat)) 2 samplePayload).animationSpeed
        = (initialState (α := Nat)).animationSpeed ∧
      (fetchWeatherBatchFromWorkerFulfilled (initialState (α := Nat)) 2 samplePayload).fetchingBatches
        = (initialState (α := Nat)).fetchingBatches.filter (fun b => b != 2) ∧
      (fetchWeatherBatchFromWorkerFulfilled (initialState (α := Nat)) 2 samplePayload).cacheStats
        = { (initialState (α := Nat)).cacheStats with
              misses := (initialState (α := Nat)).cacheStats.misses + 1 }) :=
  uninitializedPayloadDiscarded (initialState (α := Nat)) 2 samplePayload (Or.inl rfl)
